import Mathlib

/-!
Verification of the FMR monitoring dashboard's status-classification and
presentation pipeline (`src/app.py`).

The embedding models:
* calendar dates and the proleptic-Gregorian ordinal used by Python's
  `datetime.date` subtraction (`(target_date - evaluation_date).days`);
* `datetime.strptime(s, "%Y-%m-%d")` as a total function returning
  `Except ClassifyError Date`, following CPython's `_strptime` regex
  fragments `%Y ↦ \d\d\d\d`, `%m ↦ 1[0-2]|0[1-9]|[1-9]`,
  `%d ↦ 3[01]|[12]\d|0[1-9]|[1-9]`, full-string consumption, and the
  calendar validity check performed by the `datetime` constructor;
* `determine_project_status` (app.py lines 13-24) and the map/table
  presenter of the dashboard tab (app.py lines 67-80).
-/

deriving instance DecidableEq for Except

namespace FMR

/-- The single error of the classifier: the target-date string does not
parse as a `%Y-%m-%d` calendar date (Python raises `ValueError`). -/
inductive ClassifyError where
  | MalformedInput
deriving DecidableEq, Repr

/-- A calendar date as produced by `datetime.strptime(...).date()`. -/
structure Date where
  year : Nat
  month : Nat
  day : Nat
deriving DecidableEq, Repr

/-- Gregorian leap-year rule, as in `calendar.isleap` / `datetime`. -/
def isLeapYear (y : Nat) : Bool :=
  y % 4 == 0 && (y % 100 != 0 || y % 400 == 0)

/-- Number of days in month `m` of year `y` (`datetime`'s `_days_in_month`). -/
def daysInMonth (y m : Nat) : Nat :=
  if m = 2 then (if isLeapYear y then 29 else 28)
  else if m = 4 ∨ m = 6 ∨ m = 9 ∨ m = 11 then 30
  else 31

/-- Days in all years strictly before year `y` (`datetime`'s `_days_before_year`). -/
def daysBeforeYear (y : Nat) : Nat :=
  365 * (y - 1) + (y - 1) / 4 - (y - 1) / 100 + (y - 1) / 400

/-- Days in year `y` strictly before month `m` (`datetime`'s `_days_before_month`). -/
def daysBeforeMonth (y m : Nat) : Nat :=
  ((List.range (m - 1)).map (fun i => daysInMonth y (i + 1))).sum

/-- Proleptic Gregorian ordinal of a date, with 0001-01-01 ↦ 1, exactly
`datetime.date.toordinal`; Python's `(d1 - d2).days` equals
`d1.toOrdinal - d2.toOrdinal`. -/
def Date.toOrdinal (d : Date) : Int :=
  (daysBeforeYear d.year + daysBeforeMonth d.year d.month + d.day : Nat)

/-- Numeric value of a decimal digit character. -/
def digitVal (c : Char) : Nat := c.toNat - 48

/-- Month token of CPython's strptime regex `1[0-2]|0[1-9]|[1-9]`:
returns the month and the unconsumed characters. -/
def parseMonthTok : List Char → Option (Nat × List Char)
  | '1' :: c :: rest =>
      if '0' ≤ c ∧ c ≤ '2' then some (10 + digitVal c, rest)
      else some (1, c :: rest)
  | '0' :: c :: rest =>
      if '1' ≤ c ∧ c ≤ '9' then some (digitVal c, rest) else none
  | c :: rest =>
      if '1' ≤ c ∧ c ≤ '9' then some (digitVal c, rest) else none
  | [] => none

/-- Day token of CPython's strptime regex `3[01]|[12]\d|0[1-9]|[1-9]`:
returns the day and the unconsumed characters. -/
def parseDayTok : List Char → Option (Nat × List Char)
  | '3' :: c :: rest =>
      if c = '0' ∨ c = '1' then some (30 + digitVal c, rest)
      else some (3, c :: rest)
  | '0' :: c :: rest =>
      if '1' ≤ c ∧ c ≤ '9' then some (digitVal c, rest) else none
  | c1 :: c2 :: rest =>
      if (c1 = '1' ∨ c1 = '2') ∧ c2.isDigit then
        some (10 * digitVal c1 + digitVal c2, rest)
      else if '1' ≤ c1 ∧ c1 ≤ '9' then some (digitVal c1, c2 :: rest)
      else none
  | [c] => if '1' ≤ c ∧ c ≤ '9' then some (digitVal c, []) else none
  | [] => none

/-- Model of `datetime.strptime(s, "%Y-%m-%d").date()` (app.py line 14):
four year digits, a literal `-`, a month token, a literal `-`, a day token,
nothing left over; then the `datetime` constructor's range check
(year ≥ 1, day within the month).  An unparseable string is the
`MalformedInput` failure (Python's `ValueError`). -/
def strptimeDate (s : String) : Except ClassifyError Date :=
  match s.data with
  | y1 :: y2 :: y3 :: y4 :: '-' :: rest =>
    if y1.isDigit ∧ y2.isDigit ∧ y3.isDigit ∧ y4.isDigit then
      let y := 1000 * digitVal y1 + 100 * digitVal y2 + 10 * digitVal y3 + digitVal y4
      match parseMonthTok rest with
      | some (m, '-' :: rest2) =>
        match parseDayTok rest2 with
        | some (d, []) =>
            if 1 ≤ y ∧ d ≤ daysInMonth y m then .ok ⟨y, m, d⟩
            else .error .MalformedInput
        | _ => .error .MalformedInput
      | _ => .error .MalformedInput
    else .error .MalformedInput
  | _ => .error .MalformedInput

/-- The four-branch decision rule of app.py lines 17-24, as a function of
`days_remaining` (line 15) and `progress`. -/
def statusFromDays (days_remaining : Int) (progress : Int) : String × List Nat :=
  if progress ≥ 100 then ("Completed", [0, 255, 0, 160])
  else if days_remaining < 0 then ("Delayed", [255, 0, 0, 160])
  else if days_remaining ≤ 30 ∧ progress < 80 then ("At Risk", [255, 165, 0, 160])
  else ("On Track", [0, 150, 255, 160])

/-- `determine_project_status` (app.py lines 13-24): parse the target date
string, compute `days_remaining`, and classify.  Parsing failure propagates
as `MalformedInput` with no partial result. -/
def determine_project_status (target_date_str : String) (progress : Int)
    (evaluation_date : Date) : Except ClassifyError (String × List Nat) :=
  match strptimeDate target_date_str with
  | .error e => .error e
  | .ok target_date =>
      .ok (statusFromDays (target_date.toOrdinal - evaluation_date.toOrdinal) progress)

/-- One input record of the mock data frame (app.py lines 58-65). -/
structure ProjectRow where
  project_name : String
  lat : Rat
  lon : Rat
  target_date : String
  progress_pct : Int
deriving DecidableEq, Repr

/-- A record augmented with the classifier's output, as produced by the
`df.apply` on app.py lines 67-69. -/
structure ClassifiedRow extends ProjectRow where
  status : String
  color : List Nat
deriving DecidableEq, Repr

/-- Row-wise classification (app.py lines 67-69): adds `status` and `color`
columns from `determine_project_status`. -/
def classifyRow (evaluation_date : Date) (r : ProjectRow) :
    Except ClassifyError ClassifiedRow :=
  (determine_project_status r.target_date r.progress_pct evaluation_date).map
    fun sc => { toProjectRow := r, status := sc.1, color := sc.2 }

/-- One row of the table widget (app.py line 80): the six columns
`project_name`, `status`, `progress_pct`, `target_date`, `lat`, `lon`,
in that order. -/
def tableRow (c : ClassifiedRow) : String × String × Int × String × Rat × Rat :=
  (c.project_name, c.status, c.progress_pct, c.target_date, c.lat, c.lon)

/-- The table view (app.py line 80): one row per input record, input order. -/
def tableView (rows : List ClassifiedRow) :
    List (String × String × Int × String × Rat × Rat) :=
  rows.map tableRow

/-- One marker of the scatterplot layer (app.py lines 73-76):
position `[lon, lat]`, fill color the record's `color` column. -/
def mapMarker (c : ClassifiedRow) : (Rat × Rat) × List Nat :=
  ((c.lon, c.lat), c.color)

/-- The map layer's marker list (app.py lines 73-76), one per record. -/
def mapLayer (rows : List ClassifiedRow) : List ((Rat × Rat) × List Nat) :=
  rows.map mapMarker

/-- First hardcoded mock record (app.py lines 58-64). -/
def project1 : ProjectRow :=
  { project_name := "Brgy. San Jose Road Concreting", lat := 10.7202,
    lon := 122.5621, target_date := "2026-03-15", progress_pct := 60 }

/-- Second hardcoded mock record (app.py lines 58-64). -/
def project2 : ProjectRow :=
  { project_name := "Sta. Cruz Repair Phase 2", lat := 10.7310,
    lon := 122.5500, target_date := "2026-02-10", progress_pct := 40 }

/-- Third hardcoded mock record (app.py lines 58-64). -/
def project3 : ProjectRow :=
  { project_name := "Mandurriao-Jaro Link", lat := 10.7150,
    lon := 122.5400, target_date := "2025-12-01", progress_pct := 100 }

/-- The hardcoded mock data frame (app.py lines 58-65), in source order. -/
def sampleProjects : List ProjectRow := [project1, project2, project3]

/-- A sequence of classifier invocations, one output per call in order:
models repeated calls to `determine_project_status` within or across
render passes, to state history-independence. -/
def classifyCalls (calls : List (String × Int × Date)) :
    List (Except ClassifyError (String × List Nat)) :=
  calls.map fun c => determine_project_status c.1 c.2.1 c.2.2

/-- The fixed status-to-color table read off the four return branches of
app.py lines 17-24 (every alpha is 160). -/
def colorOfStatus (status : String) : List Nat :=
  if status = "Completed" then [0, 255, 0, 160]
  else if status = "Delayed" then [255, 0, 0, 160]
  else if status = "At Risk" then [255, 165, 0, 160]
  else [0, 150, 255, 160]

/-- An RGBA color (a 4-element list, alpha last) is fully opaque when its
alpha component is 255.  This predicate follows the spec's words
("fully opaque RGBA color"), for comparison with the source's colors. -/
def FullyOpaque (c : List Nat) : Prop := c.getLast? = some 255

instance : DecidablePred FullyOpaque := fun c => by
  unfold FullyOpaque; infer_instance

-- sanity checks of the embedding on concrete values
example : strptimeDate "2026-03-15" = .ok ⟨2026, 3, 15⟩ := by decide
example : strptimeDate "2026-3-5" = .ok ⟨2026, 3, 5⟩ := by decide
example : strptimeDate "2026-13-01" = .error .MalformedInput := by decide
example : strptimeDate "2025-02-29" = .error .MalformedInput := by decide
example : strptimeDate "2024-02-29" = .ok ⟨2024, 2, 29⟩ := by decide
example : strptimeDate "2026-03-155" = .error .MalformedInput := by decide
example : strptimeDate "0000-03-15" = .error .MalformedInput := by decide
example : (⟨2025, 6, 15⟩ : Date).toOrdinal = 739417 := by decide
example : (⟨2025, 7, 15⟩ : Date).toOrdinal - (⟨2025, 6, 15⟩ : Date).toOrdinal = 30 := by
  decide
example : determine_project_status "2020-01-01" 100 ⟨2025, 6, 15⟩
    = .ok ("Completed", [0, 255, 0, 160]) := by decide

/-- C1: for every input whose target-date string parses, progress ≥ 100
yields status Completed, regardless of the target date and the evaluation
date — including target dates strictly in the past (rule 1 short-circuits
rules 2-4). -/
theorem completed_shortcircuits_dates (s : String) (td : Date) (p : Int) (e : Date)
    (hs : strptimeDate s = .ok td) (hp : 100 ≤ p) :
    (determine_project_status s p e).map Prod.fst = .ok "Completed" := by
  simp only [determine_project_status, hs, statusFromDays, ge_iff_le, if_pos hp]
  rfl

/-- C1 witness: a target date five years in the past with progress 100 is
still Completed. -/
theorem completed_shortcircuits_dates_witness :
    (determine_project_status "2020-01-01" 100 ⟨2025, 6, 15⟩).map Prod.fst
      = .ok "Completed" :=
  completed_shortcircuits_dates "2020-01-01" ⟨2020, 1, 1⟩ 100 ⟨2025, 6, 15⟩
    (by decide) (by decide)

/-- C2: progress < 100 and a target date strictly before the evaluation
date (day difference < 0) yield status Delayed. -/
theorem delayed_when_target_past (s : String) (td : Date) (p : Int) (e : Date)
    (hs : strptimeDate s = .ok td) (hp : p < 100)
    (hd : td.toOrdinal - e.toOrdinal < 0) :
    (determine_project_status s p e).map Prod.fst = .ok "Delayed" := by
  simp only [determine_project_status, hs, statusFromDays, ge_iff_le]
  rw [if_neg (by omega), if_pos hd]
  rfl

/-- C2 witness: progress 50 with target 2025-01-01 evaluated at 2025-06-15
is Delayed. -/
theorem delayed_when_target_past_witness :
    (determine_project_status "2025-01-01" 50 ⟨2025, 6, 15⟩).map Prod.fst
      = .ok "Delayed" :=
  delayed_when_target_past "2025-01-01" ⟨2025, 1, 1⟩ 50 ⟨2025, 6, 15⟩
    (by decide) (by decide) (by decide)

/-- C3: progress < 100, a target date between 0 and 30 days (inclusive)
after the evaluation date, and progress < 80 yield status At Risk. -/
theorem at_risk_within_window (s : String) (td : Date) (p : Int) (e : Date)
    (hs : strptimeDate s = .ok td) (hp : p < 100)
    (h0 : 0 ≤ td.toOrdinal - e.toOrdinal) (h30 : td.toOrdinal - e.toOrdinal ≤ 30)
    (h80 : p < 80) :
    (determine_project_status s p e).map Prod.fst = .ok "At Risk" := by
  simp only [determine_project_status, hs, statusFromDays, ge_iff_le]
  rw [if_neg (not_le.mpr hp), if_neg (by omega), if_pos ⟨h30, h80⟩]
  rfl

/-- C3 witness: progress 50 with target 16 days out is At Risk. -/
theorem at_risk_within_window_witness :
    (determine_project_status "2025-07-01" 50 ⟨2025, 6, 15⟩).map Prod.fst
      = .ok "At Risk" :=
  at_risk_within_window "2025-07-01" ⟨2025, 7, 1⟩ 50 ⟨2025, 6, 15⟩
    (by decide) (by decide) (by decide) (by decide) (by decide)

/-- C4: progress < 100 matching neither the Delayed rule (day difference
< 0) nor the At Risk rule (day difference ≤ 30 and progress < 80) yields
status On Track; the progress bound of the At Risk rule is strict, so
exactly 30 days out at exactly 80 percent is On Track. -/
theorem on_track_otherwise (s : String) (td : Date) (p : Int) (e : Date)
    (hs : strptimeDate s = .ok td) (hp : p < 100)
    (hnd : ¬(td.toOrdinal - e.toOrdinal < 0))
    (hna : ¬(td.toOrdinal - e.toOrdinal ≤ 30 ∧ p < 80)) :
    (determine_project_status s p e).map Prod.fst = .ok "On Track" := by
  simp only [determine_project_status, hs, statusFromDays, ge_iff_le]
  rw [if_neg (by omega), if_neg hnd, if_neg hna]
  rfl

/-- C4 witness: the boundary scenario target = evaluation + 30 days with
progress exactly 80 is On Track, not At Risk. -/
theorem on_track_otherwise_witness :
    (determine_project_status "2025-07-15" 80 ⟨2025, 6, 15⟩).map Prod.fst
      = .ok "On Track" :=
  on_track_otherwise "2025-07-15" ⟨2025, 7, 15⟩ 80 ⟨2025, 6, 15⟩
    (by decide) (by decide) (by decide) (by decide)

/-- C5 counterexample: the claim calls every status color "fully opaque",
but the color the code returns for Completed is `[0, 255, 0, 160]`, whose
alpha component is 160, not 255: it is semi-transparent. -/
theorem status_color_not_fully_opaque :
    determine_project_status "2026-01-01" 100 ⟨2025, 6, 15⟩
        = .ok ("Completed", [0, 255, 0, 160])
      ∧ ¬ FullyOpaque [0, 255, 0, 160] := by
  decide

/-- C5 amended: the display color is determined solely by the returned
status, via the fixed map `colorOfStatus` (green for Completed, red for
Delayed, orange for At Risk, blue for On Track), and every such color has
alpha 160 — semi-transparent, not fully opaque. -/
theorem display_color_determined_by_status (s : String) (p : Int) (e : Date)
    (st : String) (c : List Nat)
    (h : determine_project_status s p e = .ok (st, c)) :
    c = colorOfStatus st ∧ c.getLast? = some 160 ∧ ¬ FullyOpaque c := by
  unfold determine_project_status at h
  cases hs : strptimeDate s with
  | error err => rw [hs] at h; exact absurd h (by simp)
  | ok td =>
      rw [hs] at h
      rw [Except.ok.injEq] at h
      unfold statusFromDays at h
      split_ifs at h <;> (injection h with h1 h2; subst h1; subst h2; decide)

/-- C5 amended witness: at a concrete Completed input, the color is the
fixed green with alpha 160. -/
theorem display_color_determined_by_status_witness :
    [0, 255, 0, 160] = colorOfStatus "Completed"
      ∧ ([0, 255, 0, 160] : List Nat).getLast? = some 160
      ∧ ¬ FullyOpaque [0, 255, 0, 160] :=
  display_color_determined_by_status "2026-01-01" 100 ⟨2025, 6, 15⟩
    "Completed" [0, 255, 0, 160] (by decide)

/-- C6: the classifier fails with `MalformedInput` exactly when the target
date string does not parse as a `%Y-%m-%d` calendar date, and in that case
there is no partial result (the `Except` is an error, never a default
status); for any string that parses, no progress value and no evaluation
date produces an error. -/
theorem malformed_input_exactly (s : String) (p : Int) (e : Date) :
    (determine_project_status s p e = .error .MalformedInput
        ↔ strptimeDate s = .error .MalformedInput)
      ∧ (∀ td : Date, strptimeDate s = .ok td →
          ∃ r, determine_project_status s p e = .ok r) := by
  cases hs : strptimeDate s with
  | error err =>
      cases err
      refine ⟨?_, ?_⟩
      · simp [determine_project_status, hs]
      · intro td h
        exact absurd h (by simp)
  | ok td =>
      refine ⟨?_, ?_⟩
      · simp [determine_project_status, hs]
      · intro td' _
        exact ⟨statusFromDays (td.toOrdinal - e.toOrdinal) p,
          by simp [determine_project_status, hs]⟩

/-- C6 witness: 2026-02-30 is not a calendar date (February has at most 29
days), so classification fails with `MalformedInput`. -/
theorem malformed_input_exactly_witness :
    determine_project_status "2026-02-30" 50 ⟨2025, 6, 15⟩
      = .error .MalformedInput :=
  (malformed_input_exactly "2026-02-30" 50 ⟨2025, 6, 15⟩).1.mpr (by decide)

/-- C7: the classifier is a pure deterministic function of (target date
string, progress, evaluation date): in any sequence of calls, the output of
a call equals the function of its own input, and is therefore identical
across any two call histories — no hidden state, no dependence on call
history. -/
theorem classifier_history_independent (calls1 calls2 : List (String × Int × Date))
    (x : String × Int × Date) :
    (classifyCalls (calls1 ++ [x])).getLast?
        = some (determine_project_status x.1 x.2.1 x.2.2)
      ∧ (classifyCalls (calls1 ++ [x])).getLast?
        = (classifyCalls (calls2 ++ [x])).getLast? := by
  constructor <;> simp [classifyCalls]

/-- C8: the table view has exactly one row per classified record, in input
order, each row the six columns (name, status, progress, target date,
latitude, longitude); the map layer has one marker per record in input
order, and each marker's fill color equals the record's display color.
No sorting, filtering or aggregation occurs. -/
theorem presenter_one_to_one (rows : List ClassifiedRow) (i : Nat) :
    (tableView rows).length = rows.length
      ∧ (mapLayer rows).length = rows.length
      ∧ (tableView rows)[i]? = rows[i]?.map tableRow
      ∧ (mapLayer rows)[i]? = rows[i]?.map mapMarker
      ∧ ((mapLayer rows)[i]?).map (fun mk => mk.2) = rows[i]?.map (fun c => c.color) := by
  refine ⟨by simp [tableView], by simp [mapLayer],
    by simp [tableView], by simp [mapLayer], ?_⟩
  cases hi : rows[i]? with
  | none => simp [mapLayer, hi]
  | some c => simp [mapLayer, hi, mapMarker]

/-- C9: for any evaluation date strictly before all three sample target
dates, the third sample record (progress 100) classifies as Completed, and
the first two (progress 60 and 40, both < 80) classify as At Risk when
their target is at most 30 days out and On Track otherwise — never
Completed, never Delayed. -/
theorem sample_records_classification (e : Date)
    (h1 : e.toOrdinal < (⟨2026, 3, 15⟩ : Date).toOrdinal)
    (h2 : e.toOrdinal < (⟨2026, 2, 10⟩ : Date).toOrdinal)
    (h3 : e.toOrdinal < (⟨2025, 12, 1⟩ : Date).toOrdinal) :
    (classifyRow e project3).map ClassifiedRow.status = .ok "Completed"
      ∧ (classifyRow e project1).map ClassifiedRow.status
        = .ok (if (⟨2026, 3, 15⟩ : Date).toOrdinal - e.toOrdinal ≤ 30
            then "At Risk" else "On Track")
      ∧ (classifyRow e project2).map ClassifiedRow.status
        = .ok (if (⟨2026, 2, 10⟩ : Date).toOrdinal - e.toOrdinal ≤ 30
            then "At Risk" else "On Track") := by
  have hs1 : strptimeDate "2026-03-15" = .ok ⟨2026, 3, 15⟩ := by decide
  have hs2 : strptimeDate "2026-02-10" = .ok ⟨2026, 2, 10⟩ := by decide
  have hs3 : strptimeDate "2025-12-01" = .ok ⟨2025, 12, 1⟩ := by decide
  have hd1 : ¬((⟨2026, 3, 15⟩ : Date).toOrdinal - e.toOrdinal < 0) := by omega
  have hd2 : ¬((⟨2026, 2, 10⟩ : Date).toOrdinal - e.toOrdinal < 0) := by omega
  refine ⟨?_, ?_, ?_⟩
  · simp [classifyRow, project3, determine_project_status, hs3, statusFromDays,
      Except.map]
  · simp only [classifyRow, project1, determine_project_status, hs1,
      statusFromDays, Except.map, hd1]
    simp [hd1]
    split <;> rfl
  · simp only [classifyRow, project2, determine_project_status, hs2,
      statusFromDays, Except.map, hd2]
    simp [hd2]
    split <;> rfl

/-- C9 witness: evaluated at 2025-11-15 (before all three targets), the
third record is Completed and the first two fall under rules 3-4. -/
theorem sample_records_classification_witness :
    (classifyRow ⟨2025, 11, 15⟩ project3).map ClassifiedRow.status = .ok "Completed"
      ∧ (classifyRow ⟨2025, 11, 15⟩ project1).map ClassifiedRow.status
        = .ok (if (⟨2026, 3, 15⟩ : Date).toOrdinal - (⟨2025, 11, 15⟩ : Date).toOrdinal ≤ 30
            then "At Risk" else "On Track")
      ∧ (classifyRow ⟨2025, 11, 15⟩ project2).map ClassifiedRow.status
        = .ok (if (⟨2026, 2, 10⟩ : Date).toOrdinal - (⟨2025, 11, 15⟩ : Date).toOrdinal ≤ 30
            then "At Risk" else "On Track") :=
  sample_records_classification ⟨2025, 11, 15⟩ (by decide) (by decide) (by decide)

/-- C10: shifting the target date and the evaluation date by the same
number of days leaves the classification result unchanged — the result
depends on the two dates only through their difference in days. -/
theorem classify_translation_invariant (s1 s2 : String) (t1 t2 : Date)
    (p : Int) (e1 e2 : Date) (d : Int)
    (hs1 : strptimeDate s1 = .ok t1) (hs2 : strptimeDate s2 = .ok t2)
    (ht : t2.toOrdinal = t1.toOrdinal + d) (he : e2.toOrdinal = e1.toOrdinal + d) :
    determine_project_status s2 p e2 = determine_project_status s1 p e1 := by
  simp only [determine_project_status, hs1, hs2]
  have hdiff : t2.toOrdinal - e2.toOrdinal = t1.toOrdinal - e1.toOrdinal := by omega
  rw [hdiff]

/-- C10 witness: shifting target 2026-03-15 and evaluation 2025-11-15 by
one day gives the same classification at progress 50. -/
theorem classify_translation_invariant_witness :
    determine_project_status "2026-03-16" 50 ⟨2025, 11, 16⟩
      = determine_project_status "2026-03-15" 50 ⟨2025, 11, 15⟩ :=
  classify_translation_invariant "2026-03-15" "2026-03-16" ⟨2026, 3, 15⟩
    ⟨2026, 3, 16⟩ 50 ⟨2025, 11, 15⟩ ⟨2025, 11, 16⟩ 1
    (by decide) (by decide) (by decide) (by decide)

end FMR
